import Mathlib

/-!
Verification development for the ippsample IPP server core
(`server/transform.c` together with the concatenated IPP processing code).

C strings are modelled as `List Char`; machine bitsets (`server_jreason_t`,
`server_preason_t`) as `Nat` with explicit bit operations; fallible paths
return explicit result structures.  Every definition is translated from the
C source; definitions that follow the specification's words instead (for
refinement comparisons) say so in their doc comment.
-/

/-- Convert a Lean string literal to the C-string model (`List Char`). -/
def cs (s : String) : List Char := s.toList

/-- Occurrence search helper: `strstrPre needle hay` returns the part of
`hay` strictly before the first occurrence of `needle`, or `none` when
`needle` does not occur.  This models C `strstr` together with the
truncation `*ptr = '\0'` that the server performs at the match position. -/
def strstrPre (needle : List Char) : List Char → Option (List Char)
  | [] => if needle.isPrefixOf ([] : List Char) then some [] else none
  | c :: rest =>
    if needle.isPrefixOf (c :: rest) then some []
    else (strstrPre needle rest).map (c :: ·)

/-- Substring occurrence test, the boolean reading of C `strstr(hay, needle) != NULL`. -/
def hasSub (needle hay : List Char) : Bool := (strstrPre needle hay).isSome

/-!
## C1 — `valid_filename` (server/transform.c:9797)

Translation of:

    if (strstr(filename, "/../") || strstr(filename, "/./"))
      return (false);
    for (i = 0; i < count; i ++)
    {
      dir    = (char *)cupsArrayGetElement(FileDirectories, i);
      dirlen = strlen(dir);
      if (filelen >= dirlen && strncmp(filename, dir, dirlen) &&
          (filename[dirlen] == '/' || !filename[dirlen]))
        return (true);
    }
    return (false);

Note the source uses the raw `strncmp(...)` result as the condition, which
is non-zero exactly when the first `dirlen` bytes of `filename` do NOT
equal `dir`.
-/

/-- Model of `valid_filename`: `FileDirectories` is the configured allow-list. -/
def valid_filename (FileDirectories : List (List Char)) (filename : List Char) : Bool :=
  if hasSub (cs "/../") filename || hasSub (cs "/./") filename then false
  else
    FileDirectories.any fun dir =>
      decide (dir.length ≤ filename.length) &&
      !(decide (filename.take dir.length = dir)) &&
      (match filename.drop dir.length with
       | [] => true
       | c :: _ => c == '/')

/-- C1: evaluation of `valid_filename` at the failing inputs.  With the
allow-list `["/tmp"]`, the filename `/etc/passwd` — which lies under none of
the configured directories — is accepted, while `/tmp/doc.pdf`, which does
begin with the configured directory prefix followed by `/`, is rejected.
The containment checks for `/../` and `/./` do behave as claimed.  The
prefix test is inverted (the source uses the raw `strncmp` result where the
allow-list semantics require its negation), refuting the claimed
if-and-only-if characterization. -/
theorem C1_valid_filename_eval :
    valid_filename [cs "/tmp"] (cs "/etc/passwd") = true ∧
    valid_filename [cs "/tmp"] (cs "/tmp/doc.pdf") = false ∧
    valid_filename [cs "/tmp"] (cs "/tmp/../doc.pdf") = false ∧
    valid_filename [cs "/tmp"] (cs "/x/./y") = false := by
  decide

/-!
## C2 — `process_state_message` (server/transform.c:656)

The function parses a transform stderr line of the form
`STATE: [+|-]kw[,kw...]`.  The keyword tables `server_jreasons` /
`server_preasons` live in `ippserver.h` (not under `src/`), so the model is
parametrized by the two keyword lists; bit `i` of a reason bitset
corresponds to entry `i` of the respective table, exactly as the C loops
`for (i = 0, jbit = 1; ...; i ++, jbit *= 2)` pair them.
-/

/-- Bit clearing `x & ~y`, written with kernel-computable operations
(`x ^ (x & y)` clears exactly the bits of `y` that are set in `x`). -/
def natClear (x y : Nat) : Nat := x ^^^ (x &&& y)

/-- Job states (`ipp_jstate_t`). -/
inductive JState where
  | pending | held | processing | stopped | canceled | aborted | completed
  deriving DecidableEq, Repr

/-- Split a character list at every comma, mirroring the C loop
`if ((next = strchr(message, ',')) != NULL) *next++ = '\0';`. -/
def splitComma : List Char → List (List Char)
  | [] => [[]]
  | c :: rest =>
    if c = ',' then [] :: splitComma rest
    else
      match splitComma rest with
      | [] => [[c]]
      | p :: ps => (c :: p) :: ps

/-- Keywords processed by the C while-loop.  The loop tests `*message`
before each keyword, so a trailing empty segment (from a trailing comma, or
from an empty body) is never processed, while interior empty segments are. -/
def cKeywords (body : List Char) : List (List Char) :=
  let ps := splitComma body
  match ps.getLast? with
  | some [] => ps.dropLast
  | _ => ps

/-- Suffix classification of one keyword: the C code truncates the keyword
at the first occurrence of `-error` (also recording the job abort), else at
the first `-report`, else at the first `-warning`.  Returns the truncated
keyword and whether `-error` occurred. -/
def classifyKeyword (kw : List Char) : List Char × Bool :=
  match strstrPre (cs "-error") kw with
  | some pre => (pre, true)
  | none =>
    match strstrPre (cs "-report") kw with
    | some pre => (pre, false)
    | none =>
      match strstrPre (cs "-warning") kw with
      | some pre => (pre, false)
      | none => (kw, false)

/-- One pass of the C table loop starting at bit index `i`: for every table
entry equal to `kw`, the corresponding bit is cleared (`remove`) or set. -/
def updateReasonsFrom (kws : List (List Char)) (kw : List Char) (remove : Bool) (i : Nat) (bits : Nat) : Nat :=
  match kws with
  | [] => bits
  | k :: ks =>
    updateReasonsFrom ks kw remove (i + 1)
      (if k = kw then (if remove then natClear bits (2 ^ i) else bits ||| 2 ^ i) else bits)

/-- The table loop of `process_state_message` (`jreasons &= ~jbit` /
`jreasons |= jbit` and likewise for printer reasons). -/
def updateReasons (kws : List (List Char)) (kw : List Char) (remove : Bool) (bits : Nat) : Nat :=
  updateReasonsFrom kws kw remove 0 bits

/-- Message mode: `-` prefix, `+` prefix, or no prefix. -/
inductive StateMode where
  | minus | plus | bare
  deriving DecidableEq, Repr

/-- Skip the leading `STATE:`, the following blanks, and read the mode
character, exactly as lines 675-712 of the source do. -/
def parseStateBody (line : List Char) : StateMode × List Char :=
  let msg := (line.drop 6).dropWhile (fun c => c == ' ' || c == '\t')
  match msg with
  | '-' :: rest => (StateMode.minus, rest)
  | '+' :: rest => (StateMode.plus, rest)
  | _ => (StateMode.bare, msg)

/-- Result of `process_state_message`: the job state and the two bitsets it
writes back at lines 757-758. -/
structure StateMsgOut where
  jstate : JState
  jreasons : Nat
  preasons : Nat
  deriving DecidableEq, Repr

/-- Body of the keyword while-loop: job-reason matching on the raw keyword,
then suffix classification (setting `job->state = IPP_JSTATE_ABORTED` on
`-error`), then printer-reason matching on the truncated keyword. -/
def processKeywordStep (jkws pkws : List (List Char)) (remove : Bool) (st : StateMsgOut) (kw : List Char) : StateMsgOut :=
  let j := updateReasons jkws kw remove st.jreasons
  let c := classifyKeyword kw
  let p := updateReasons pkws c.1 remove st.preasons
  { jstate := if c.2 then JState.aborted else st.jstate, jreasons := j, preasons := p }

/-- Model of `process_state_message`, parametrized by the two keyword
tables.  In `-` and `+` modes both working sets start from the current
values; with no prefix the printer working set starts from
`SERVER_PREASON_NONE` (zero) while the job set still starts from the
current value. -/
def process_state_message (jkws pkws : List (List Char)) (jstate : JState) (jreasons preasons : Nat) (line : List Char) : StateMsgOut :=
  let mb := parseStateBody line
  let remove := decide (mb.1 = StateMode.minus)
  let pre0 := match mb.1 with
    | StateMode.bare => 0
    | _ => preasons
  (cKeywords mb.2).foldl (processKeywordStep jkws pkws remove) ⟨jstate, jreasons, pre0⟩

/-- Bit positions of table entries equal to `kw`, starting at index `i`. -/
def reasonBitsFrom (kws : List (List Char)) (kw : List Char) (i : Nat) : Nat :=
  match kws with
  | [] => 0
  | k :: ks => (if k = kw then 2 ^ i else 0) ||| reasonBitsFrom ks kw (i + 1)

/-- Bitset denoted by one keyword against a table. -/
def reasonBits (kws : List (List Char)) (kw : List Char) : Nat := reasonBitsFrom kws kw 0

/-- Union of the bitsets denoted by a list of keywords. -/
def listBits (kws : List (List Char)) (ks : List (List Char)) : Nat :=
  ks.foldr (fun k acc => reasonBits kws k ||| acc) 0

/-- Keyword as seen by the printer-reason classifier (suffix stripped). -/
def stripStateSuffix (kw : List Char) : List Char := (classifyKeyword kw).1

/-- Whether a keyword carries the `-error` marker. -/
def hasErrorSub (kw : List Char) : Bool := (classifyKeyword kw).2

/-- Specification-level reading of a STATE message, following the claim's
words: `-` removes the listed keywords from both bitsets, `+` adds them,
no prefix replaces the printer set with exactly the listed printer keywords
while job reasons stay additive; an `-error` marker on any keyword aborts
the job; `-report`/`-warning` suffixes are stripped before the
printer-reason classifier. -/
def processStateSpec (jkws pkws : List (List Char)) (jstate : JState) (jreasons preasons : Nat) (line : List Char) : StateMsgOut :=
  let mb := parseStateBody line
  let ks := cKeywords mb.2
  let jbits := listBits jkws ks
  let pbits := listBits pkws (ks.map stripStateSuffix)
  { jstate := if ks.any hasErrorSub then JState.aborted else jstate
    jreasons :=
      match mb.1 with
      | StateMode.minus => natClear jreasons jbits
      | _ => jreasons ||| jbits
    preasons :=
      match mb.1 with
      | StateMode.minus => natClear preasons pbits
      | StateMode.plus => preasons ||| pbits
      | StateMode.bare => pbits }

theorem natClear_testBit (x y : Nat) (i : Nat) :
    (natClear x y).testBit i = (x.testBit i && !y.testBit i) := by
  simp only [natClear, Nat.testBit_xor, Nat.testBit_land]
  cases x.testBit i <;> cases y.testBit i <;> rfl

theorem natClear_natClear (x a b : Nat) : natClear (natClear x a) b = natClear x (a ||| b) := by
  apply Nat.eq_of_testBit_eq
  intro i
  simp only [natClear_testBit, Nat.testBit_lor]
  cases x.testBit i <;> cases a.testBit i <;> cases b.testBit i <;> rfl

theorem natClear_zero (x : Nat) : natClear x 0 = x := by
  apply Nat.eq_of_testBit_eq
  intro i
  simp [natClear_testBit]

theorem updateReasonsFrom_set (kws : List (List Char)) (kw : List Char) (i : Nat) (bits : Nat) :
    updateReasonsFrom kws kw false i bits = bits ||| reasonBitsFrom kws kw i := by
  induction kws generalizing i bits with
  | nil => simp [updateReasonsFrom, reasonBitsFrom]
  | cons k ks ih =>
    simp only [updateReasonsFrom, reasonBitsFrom, ih]
    by_cases h : k = kw
    · simp [h, Nat.lor_assoc]
    · simp [h, Nat.lor_assoc]

theorem updateReasonsFrom_clear (kws : List (List Char)) (kw : List Char) (i : Nat) (bits : Nat) :
    updateReasonsFrom kws kw true i bits = natClear bits (reasonBitsFrom kws kw i) := by
  induction kws generalizing i bits with
  | nil => simp [updateReasonsFrom, reasonBitsFrom, natClear_zero]
  | cons k ks ih =>
    simp only [updateReasonsFrom, reasonBitsFrom, ih]
    by_cases h : k = kw
    · simp [h, natClear_natClear]
    · simp [h, natClear_natClear, Nat.zero_or]

theorem stateFold_spec (jkws pkws : List (List Char)) (remove : Bool) (ks : List (List Char)) (st : StateMsgOut) :
    ks.foldl (processKeywordStep jkws pkws remove) st =
      { jstate := if ks.any hasErrorSub then JState.aborted else st.jstate
        jreasons :=
          if remove then natClear st.jreasons (listBits jkws ks)
          else st.jreasons ||| listBits jkws ks
        preasons :=
          if remove then natClear st.preasons (listBits pkws (ks.map stripStateSuffix))
          else st.preasons ||| listBits pkws (ks.map stripStateSuffix) } := by
  induction ks generalizing st with
  | nil =>
    simp [listBits, natClear_zero]
  | cons k ks ih =>
    rw [List.foldl_cons, ih]
    cases remove with
    | true =>
      simp only [processKeywordStep, updateReasons, updateReasonsFrom_clear, if_pos,
        List.any_cons, List.map_cons, listBits, List.foldr_cons, natClear_natClear,
        stripStateSuffix, reasonBits]
      cases hek : (classifyKeyword k).2 with
      | true =>
        simp only [hasErrorSub, hek, if_pos, Bool.true_or, ite_self]
      | false =>
        simp only [hasErrorSub, hek, Bool.false_eq_true, if_neg, Bool.false_or, ite_false]
    | false =>
      simp only [processKeywordStep, updateReasons, updateReasonsFrom_set,
        Bool.false_eq_true, if_neg, ite_false, List.any_cons, List.map_cons, listBits,
        List.foldr_cons, Nat.lor_assoc, stripStateSuffix, reasonBits]
      cases hek : (classifyKeyword k).2 with
      | true =>
        simp only [hasErrorSub, hek, if_pos, Bool.true_or, ite_self]
      | false =>
        simp only [hasErrorSub, hek, Bool.false_eq_true, if_neg, Bool.false_or, ite_false]

/-- C2: a STATE line with a `-` prefix removes the listed keywords from the
job and printer state-reason bitsets, a `+` prefix adds them, and a line
with no prefix replaces the printer-state-reasons set with exactly the
listed printer keywords while the job set stays additive; any keyword
carrying an `-error` marker also sets the job state to aborted, and
`-report`/`-warning` suffixes are stripped before the printer-reason
classifier (so `media-empty-warning` still sets `media-empty`).  Stated as
the equality of the source translation with the specification-level reading
for every keyword table, every starting state and every line. -/
theorem C2_process_state_message (jkws pkws : List (List Char)) (jstate : JState)
    (jreasons preasons : Nat) (line : List Char) :
    process_state_message jkws pkws jstate jreasons preasons line =
      processStateSpec jkws pkws jstate jreasons preasons line := by
  unfold process_state_message processStateSpec
  rcases h : parseStateBody line with ⟨mode, body⟩
  cases mode <;> simp [stateFold_spec]

/-!
## Shared IPP attribute and response model

Attribute group and value tags (`ipp_tag_t`), attribute values, and the
response object (`client->response`), covering what the verified handlers
inspect: names, group tags, value tags, value counts, string values,
integer values and first-value collection members.
-/

/-- IPP group and value tags used by the verified code paths. -/
inductive IppTag where
  | zero | operation | job | printer | system | subscription | document | unsupportedGroup
  | integer | enum | boolean | keyword | nameTag | nameLang | text | textLang
  | uri | uriScheme | mimeType | charset | language | beginCollection
  | novalue | unknown | notSettable
  deriving DecidableEq, Repr

/-- Member of a collection value; the verified code only inspects a
member's name, value tag and value count. -/
structure ColMember where
  name : List Char
  vtag : IppTag
  count : Nat
  deriving DecidableEq, Repr

/-- One attribute value. -/
inductive IppVal where
  | int (i : Int)
  | str (s : List Char)
  | boolv (b : Bool)
  | colv (members : List ColMember)
  deriving DecidableEq, Repr

/-- An IPP attribute: name, group tag, value tag, values. -/
structure IppAttr where
  name : List Char
  group : IppTag
  vtag : IppTag
  vals : List IppVal
  deriving DecidableEq, Repr

/-- IPP status codes used by the verified code paths. -/
inductive IppStatus where
  | ok | errBadRequest | errNotFound | errNotAuthorized | errNotPossible
  | errAttributesOrValues | errAttributesNotSettable | errOperationNotSupported
  | errDocumentAccess | errInternal | errServiceUnavailable
  deriving DecidableEq, Repr

/-- The IPP response object: status code plus response attributes. -/
structure Response where
  status : IppStatus
  attrs : List IppAttr
  deriving DecidableEq, Repr

/-- A freshly created response (status `successful-ok`, used by
`serverProcessIPP` before dispatch). -/
def freshResponse : Response := ⟨IppStatus.ok, []⟩

/-- Model of `ippFindAttribute`: first attribute with the given name whose
value tag matches (`IPP_TAG_ZERO` matches any tag). -/
def ippFindAttribute (attrs : List IppAttr) (nm : List Char) (tag : IppTag) : Option IppAttr :=
  attrs.find? fun a => a.name == nm && (tag == IppTag.zero || a.vtag == tag)

/-- Model of `ippContainsString`: some value of the attribute is the given string. -/
def ippContainsString (attr : IppAttr) (s : List Char) : Bool :=
  attr.vals.any fun v =>
    match v with
    | IppVal.str t => t == s
    | _ => false

/-- Replace the first attribute satisfying `p` by `f` of it. -/
def replaceFirst (p : IppAttr → Bool) (f : IppAttr → IppAttr) : List IppAttr → List IppAttr
  | [] => []
  | a :: rest => if p a then f a :: rest else a :: replaceFirst p f rest

/-- Remove the first attribute satisfying `p` (`ippDeleteAttribute`). -/
def removeFirst (p : IppAttr → Bool) : List IppAttr → List IppAttr
  | [] => []
  | a :: rest => if p a then rest else a :: removeFirst p rest

/-- Model of `serverRespondIPP` (server/transform.c:9598): set the status
code and, when a message is given, set value 0 of an existing
`status-message` text attribute or add a new one. -/
def serverRespondIPP (resp : Response) (status : IppStatus) (message : Option (List Char)) : Response :=
  let resp := { resp with status := status }
  match message with
  | none => resp
  | some m =>
    let p := fun (a : IppAttr) => a.name == cs "status-message" && a.vtag == IppTag.text
    if (resp.attrs.find? p).isSome then
      { resp with attrs := replaceFirst p (fun a => { a with vals := [IppVal.str m] }) resp.attrs }
    else
      { resp with attrs := resp.attrs ++ [⟨cs "status-message", IppTag.operation, IppTag.text, [IppVal.str m]⟩] }

/-!
## C10 — `serverRespondUnsupported` (server/transform.c:9638)

    if (ippGetStatusCode(client->response) == IPP_STATUS_OK)
      serverRespondIPP(client, IPP_STATUS_ERROR_ATTRIBUTES_OR_VALUES, ...);
    temp = ippCopyAttribute(client->response, attr, 0);
    ippSetGroupTag(client->response, &temp, IPP_TAG_UNSUPPORTED_GROUP);
-/

/-- Model of `serverRespondUnsupported`: record `attributes-or-values` only
when the response is still `successful-ok`, then append a copy of the
offending attribute retargeted to the unsupported group. -/
def serverRespondUnsupported (resp : Response) (attr : IppAttr) : Response :=
  let resp :=
    if resp.status = IppStatus.ok then
      serverRespondIPP resp IppStatus.errAttributesOrValues (some (cs "Unsupported value."))
    else resp
  { resp with attrs := resp.attrs ++ [{ attr with group := IppTag.unsupportedGroup }] }

/-- C10: `serverRespondUnsupported` never overwrites an already-recorded
error — it sets `attributes-or-values` only when the current status is
still `successful-ok` — and in every call it copies the offending
attribute, with its original values, into the unsupported group. -/
theorem C10_serverRespondUnsupported (resp : Response) (attr : IppAttr) :
    (resp.status = IppStatus.ok →
      (serverRespondUnsupported resp attr).status = IppStatus.errAttributesOrValues) ∧
    (resp.status ≠ IppStatus.ok →
      (serverRespondUnsupported resp attr).status = resp.status) ∧
    { attr with group := IppTag.unsupportedGroup } ∈ (serverRespondUnsupported resp attr).attrs := by
  refine ⟨fun h => ?_, fun h => ?_, ?_⟩
  · unfold serverRespondUnsupported serverRespondIPP
    simp only [h, if_pos]
    split <;> rfl
  · unfold serverRespondUnsupported
    simp [h]
  · by_cases h : resp.status = IppStatus.ok
    · unfold serverRespondUnsupported serverRespondIPP
      simp only [h, if_pos]
      split <;> simp
    · unfold serverRespondUnsupported
      simp [h]

/-- Offending attribute used for concrete evaluations (`copies=0` as in
scenario S6). -/
def copiesAttr : IppAttr := ⟨cs "copies", IppTag.operation, IppTag.integer, [IppVal.int 0]⟩

/-- C10 witness: concrete applications of `C10_serverRespondUnsupported`
with a fresh response (status becomes `attributes-or-values`), with a
response already carrying `not-found` (status preserved), and the copied
attribute present in the unsupported group. -/
theorem C10_serverRespondUnsupported_witness :
    (serverRespondUnsupported freshResponse copiesAttr).status = IppStatus.errAttributesOrValues ∧
    (serverRespondUnsupported ⟨IppStatus.errNotFound, []⟩ copiesAttr).status = IppStatus.errNotFound ∧
    { copiesAttr with group := IppTag.unsupportedGroup } ∈
      (serverRespondUnsupported freshResponse copiesAttr).attrs :=
  ⟨(C10_serverRespondUnsupported freshResponse copiesAttr).1 rfl,
   (C10_serverRespondUnsupported ⟨IppStatus.errNotFound, []⟩ copiesAttr).2.1 (by decide),
   (C10_serverRespondUnsupported freshResponse copiesAttr).2.2⟩

/-!
## C3 — unsupported operation dispatch (server/transform.c:9162-9381)

The printer-target switch of `serverProcessIPP`.  Operation codes are
modelled as an inductive with one constructor per case label appearing in
the source (printer-target and system-target switches combined) plus
`other n` for any remaining `ipp_op_t` code.  The individual handlers are
left abstract: the dispatcher is parametrized by a handler function `h`
over an arbitrary server-state type, exactly as the C cases each invoke
`ipp_xxx(client)`.
-/

/-- IPP operation codes named by the two dispatch switches. -/
inductive IppOp where
  | printJob | printUri | validateJob | createJob | sendDocument | sendUri
  | cancelJob | cancelCurrentJob | cancelJobs | cancelMyJobs
  | getJobAttributes | setJobAttributes | getJobs
  | getPrinterAttributes | getPrinterSupportedValues | setPrinterAttributes
  | closeJob | holdJob | holdNewJobs | releaseJob | releaseHeldNewJobs
  | identifyPrinter | cancelSubscription
  | createJobSubscriptions | createPrinterSubscriptions
  | getNotifications | getSubscriptionAttributes | getSubscriptions | renewSubscription
  | cancelDocument | getDocumentAttributes | getDocuments | setDocumentAttributes
  | validateDocument | acknowledgeDocument | acknowledgeIdentifyPrinter | acknowledgeJob
  | fetchDocument | fetchJob | getOutputDeviceAttributes
  | updateActiveJobs | updateDocumentStatus | updateJobStatus | updateOutputDeviceAttributes
  | deregisterOutputDevice
  | shutdownPrinter | startupPrinter | restartPrinter | disablePrinter | enablePrinter
  | pausePrinter | pausePrinterAfterCurrentJob | resumePrinter
  | allocatePrinterResources | deallocatePrinterResources
  | cancelResource | createResource | createSystemSubscriptions
  | getResourceAttributes | getResources | installResource | sendResourceData
  | setResourceAttributes | getSystemAttributes | getSystemSupportedValues
  | setSystemAttributes | createPrinter | getPrinters | deletePrinter
  | disableAllPrinters | enableAllPrinters | pauseAllPrinters | pauseAllPrintersAfterCurrentJob
  | registerOutputDevice | resumeAllPrinters | shutdownAllPrinters | shutdownOnePrinter
  | restartSystem | startupAllPrinters | startupOnePrinter
  | other (code : Nat)

/-- Case labels of the printer-target switch: `true` exactly for the
operation codes that have a handler when the target of the request is a
resolved printer. -/
def handledPrinterOp : IppOp → Bool
  | IppOp.printJob | IppOp.printUri | IppOp.validateJob | IppOp.createJob
  | IppOp.sendDocument | IppOp.sendUri | IppOp.cancelJob | IppOp.cancelCurrentJob
  | IppOp.cancelJobs | IppOp.cancelMyJobs | IppOp.getJobAttributes | IppOp.setJobAttributes
  | IppOp.getJobs | IppOp.getPrinterAttributes | IppOp.getPrinterSupportedValues
  | IppOp.setPrinterAttributes | IppOp.closeJob | IppOp.holdJob | IppOp.holdNewJobs
  | IppOp.releaseJob | IppOp.releaseHeldNewJobs | IppOp.identifyPrinter
  | IppOp.cancelSubscription | IppOp.createJobSubscriptions | IppOp.createPrinterSubscriptions
  | IppOp.getNotifications | IppOp.getSubscriptionAttributes | IppOp.getSubscriptions
  | IppOp.renewSubscription | IppOp.cancelDocument | IppOp.getDocumentAttributes
  | IppOp.getDocuments | IppOp.setDocumentAttributes | IppOp.validateDocument
  | IppOp.acknowledgeDocument | IppOp.acknowledgeIdentifyPrinter | IppOp.acknowledgeJob
  | IppOp.fetchDocument | IppOp.fetchJob | IppOp.getOutputDeviceAttributes
  | IppOp.updateActiveJobs | IppOp.updateDocumentStatus | IppOp.updateJobStatus
  | IppOp.updateOutputDeviceAttributes | IppOp.deregisterOutputDevice
  | IppOp.shutdownPrinter | IppOp.startupPrinter | IppOp.restartPrinter
  | IppOp.disablePrinter | IppOp.enablePrinter | IppOp.pausePrinter
  | IppOp.pausePrinterAfterCurrentJob | IppOp.resumePrinter
  | IppOp.allocatePrinterResources | IppOp.deallocatePrinterResources => true
  | _ => false

/-- The printer-target switch of `serverProcessIPP`: each case label
invokes its handler on the current server state and response; the
`default` label only records `operation-not-supported` on the response. -/
def dispatch_printer_op {σ : Type} (h : IppOp → σ → Response → σ × Response)
    (op : IppOp) (st : σ) (resp : Response) : σ × Response :=
  match op with
  | IppOp.printJob => h IppOp.printJob st resp
  | IppOp.printUri => h IppOp.printUri st resp
  | IppOp.validateJob => h IppOp.validateJob st resp
  | IppOp.createJob => h IppOp.createJob st resp
  | IppOp.sendDocument => h IppOp.sendDocument st resp
  | IppOp.sendUri => h IppOp.sendUri st resp
  | IppOp.cancelJob => h IppOp.cancelJob st resp
  | IppOp.cancelCurrentJob => h IppOp.cancelCurrentJob st resp
  | IppOp.cancelJobs => h IppOp.cancelJobs st resp
  | IppOp.cancelMyJobs => h IppOp.cancelMyJobs st resp
  | IppOp.getJobAttributes => h IppOp.getJobAttributes st resp
  | IppOp.setJobAttributes => h IppOp.setJobAttributes st resp
  | IppOp.getJobs => h IppOp.getJobs st resp
  | IppOp.getPrinterAttributes => h IppOp.getPrinterAttributes st resp
  | IppOp.getPrinterSupportedValues => h IppOp.getPrinterSupportedValues st resp
  | IppOp.setPrinterAttributes => h IppOp.setPrinterAttributes st resp
  | IppOp.closeJob => h IppOp.closeJob st resp
  | IppOp.holdJob => h IppOp.holdJob st resp
  | IppOp.holdNewJobs => h IppOp.holdNewJobs st resp
  | IppOp.releaseJob => h IppOp.releaseJob st resp
  | IppOp.releaseHeldNewJobs => h IppOp.releaseHeldNewJobs st resp
  | IppOp.identifyPrinter => h IppOp.identifyPrinter st resp
  | IppOp.cancelSubscription => h IppOp.cancelSubscription st resp
  | IppOp.createJobSubscriptions => h IppOp.createJobSubscriptions st resp
  | IppOp.createPrinterSubscriptions => h IppOp.createPrinterSubscriptions st resp
  | IppOp.getNotifications => h IppOp.getNotifications st resp
  | IppOp.getSubscriptionAttributes => h IppOp.getSubscriptionAttributes st resp
  | IppOp.getSubscriptions => h IppOp.getSubscriptions st resp
  | IppOp.renewSubscription => h IppOp.renewSubscription st resp
  | IppOp.cancelDocument => h IppOp.cancelDocument st resp
  | IppOp.getDocumentAttributes => h IppOp.getDocumentAttributes st resp
  | IppOp.getDocuments => h IppOp.getDocuments st resp
  | IppOp.setDocumentAttributes => h IppOp.setDocumentAttributes st resp
  | IppOp.validateDocument => h IppOp.validateDocument st resp
  | IppOp.acknowledgeDocument => h IppOp.acknowledgeDocument st resp
  | IppOp.acknowledgeIdentifyPrinter => h IppOp.acknowledgeIdentifyPrinter st resp
  | IppOp.acknowledgeJob => h IppOp.acknowledgeJob st resp
  | IppOp.fetchDocument => h IppOp.fetchDocument st resp
  | IppOp.fetchJob => h IppOp.fetchJob st resp
  | IppOp.getOutputDeviceAttributes => h IppOp.getOutputDeviceAttributes st resp
  | IppOp.updateActiveJobs => h IppOp.updateActiveJobs st resp
  | IppOp.updateDocumentStatus => h IppOp.updateDocumentStatus st resp
  | IppOp.updateJobStatus => h IppOp.updateJobStatus st resp
  | IppOp.updateOutputDeviceAttributes => h IppOp.updateOutputDeviceAttributes st resp
  | IppOp.deregisterOutputDevice => h IppOp.deregisterOutputDevice st resp
  | IppOp.shutdownPrinter => h IppOp.shutdownPrinter st resp
  | IppOp.startupPrinter => h IppOp.startupPrinter st resp
  | IppOp.restartPrinter => h IppOp.restartPrinter st resp
  | IppOp.disablePrinter => h IppOp.disablePrinter st resp
  | IppOp.enablePrinter => h IppOp.enablePrinter st resp
  | IppOp.pausePrinter => h IppOp.pausePrinter st resp
  | IppOp.pausePrinterAfterCurrentJob => h IppOp.pausePrinterAfterCurrentJob st resp
  | IppOp.resumePrinter => h IppOp.resumePrinter st resp
  | IppOp.allocatePrinterResources => h IppOp.allocatePrinterResources st resp
  | IppOp.deallocatePrinterResources => h IppOp.deallocatePrinterResources st resp
  | _ => (st, serverRespondIPP resp IppStatus.errOperationNotSupported (some (cs "Operation not supported.")))

/-- C3: for every operation code without a handler in the printer-target
switch, the dispatcher returns the server state unchanged — no printer,
job, subscription, resource or output-device object is touched, since the
state type is arbitrary — and records `operation-not-supported` on the
response. -/
theorem C3_unsupported_printer_op {σ : Type} (h : IppOp → σ → Response → σ × Response)
    (op : IppOp) (st : σ) (resp : Response) (hop : handledPrinterOp op = false) :
    dispatch_printer_op h op st resp =
      (st, serverRespondIPP resp IppStatus.errOperationNotSupported
             (some (cs "Operation not supported."))) := by
  cases op <;> first
    | rfl
    | exact absurd hop (by decide)

/-- C3 witness: the system-level `Create-Printer` code and an entirely
unknown code `0x4242` both take the default branch: with a handler that
would increment a counter state, the state stays `7` and the status
becomes `operation-not-supported`. -/
theorem C3_unsupported_printer_op_witness :
    handledPrinterOp (IppOp.other 0x4242) = false ∧
    handledPrinterOp IppOp.createPrinter = false ∧
    dispatch_printer_op (fun _ (st : Nat) r => (st + 1, r)) (IppOp.other 0x4242) 7 freshResponse =
      (7, serverRespondIPP freshResponse IppStatus.errOperationNotSupported
            (some (cs "Operation not supported."))) ∧
    dispatch_printer_op (fun _ (st : Nat) r => (st + 1, r)) IppOp.createPrinter 7 freshResponse =
      (7, serverRespondIPP freshResponse IppStatus.errOperationNotSupported
            (some (cs "Operation not supported."))) :=
  ⟨rfl, rfl,
   C3_unsupported_printer_op _ _ _ _ rfl,
   C3_unsupported_printer_op _ _ _ _ rfl⟩

/-!
## C6 / C4 — `respond_unsettable` (line 9658), `valid_values` (line 10196)
and `ipp_set_system_attributes` (line 7952)
-/

/-- Model of `respond_unsettable`.  The source reads

    if (ippGetStatusCode(client->response) != IPP_STATUS_OK)
      serverRespondIPP(client, IPP_STATUS_ERROR_ATTRIBUTES_NOT_SETTABLE, ...);
    ippAddOutOfBand(client->response, IPP_TAG_UNSUPPORTED_GROUP, IPP_TAG_NOTSETTABLE, name);

so the status is changed only when an error is ALREADY recorded — the
opposite guard of `serverRespondUnsupported` — and the out-of-band
`not-settable` attribute is always appended. -/
def respond_unsettable (resp : Response) (attr : IppAttr) : Response :=
  let resp :=
    if resp.status ≠ IppStatus.ok then
      serverRespondIPP resp IppStatus.errAttributesNotSettable (some (cs "Unsettable attribute."))
    else resp
  { resp with attrs := resp.attrs ++ [⟨attr.name, IppTag.unsupportedGroup, IppTag.notSettable, []⟩] }

/-- Create-style operations, from the `create_op` test of `valid_values`. -/
def isCreateOp : IppOp → Bool
  | IppOp.createJob | IppOp.createPrinter | IppOp.createResource | IppOp.printJob
  | IppOp.printUri | IppOp.validateJob | IppOp.validateDocument => true
  | _ => false

/-- Set-style operations, from the `set_op` test of `valid_values`. -/
def isSetOp : IppOp → Bool
  | IppOp.setDocumentAttributes | IppOp.setJobAttributes | IppOp.setPrinterAttributes
  | IppOp.setResourceAttributes | IppOp.setSystemAttributes => true
  | _ => false

/-- A row of a validation table (`server_value_t`). -/
structure ServerValue where
  name : List Char
  value_tag : IppTag
  alt_tag : IppTag
  flags : Nat
  deriving DecidableEq, Repr

/-- `VALUE_1SETOF` flag. -/
def VALUE_1SETOF : Nat := 1

/-- `VALUE_CREATEOP` flag. -/
def VALUE_CREATEOP : Nat := 2

/-- Supported-keywords phase of `valid_values`: every named request
attribute in the checked group must appear in the supported list; the
first offender is reported through `respond_unsettable` (set operations)
or `serverRespondUnsupported` (all others) and validation stops. -/
def validSupportedLoop (setOp : Bool) (groupTag : IppTag) (supported : IppAttr)
    (resp : Response) : List IppAttr → Bool × Response
  | [] => (true, resp)
  | a :: rest =>
    if a.name.isEmpty || a.group != groupTag then
      validSupportedLoop setOp groupTag supported resp rest
    else if ippContainsString supported a.name then
      validSupportedLoop setOp groupTag supported resp rest
    else if setOp then (false, respond_unsettable resp a)
    else (false, serverRespondUnsupported resp a)

/-- Table phase of `valid_values`: for each row whose attribute occurs in
the request, check the group (with the create-operation exemption), the
value tag (declared or alternate, with name↔nameWithLanguage and
text↔textWithLanguage equivalence) and the cardinality (≤ 1 unless
`VALUE_1SETOF`). -/
def validRowsLoop (createOp : Bool) (groupTag : IppTag) (req : List IppAttr)
    (resp : Response) : List ServerValue → Bool × Response
  | [] => (true, resp)
  | v :: rest =>
    match ippFindAttribute req v.name IppTag.zero with
    | none => validRowsLoop createOp groupTag req resp rest
    | some attr =>
      if attr.group != groupTag &&
         (((v.flags &&& VALUE_CREATEOP) == 0) || !createOp || attr.group != IppTag.operation) then
        (false, serverRespondUnsupported
          (serverRespondIPP resp IppStatus.errBadRequest (some (cs "Attribute in the wrong group."))) attr)
      else if attr.vtag != v.value_tag && attr.vtag != v.alt_tag &&
              !(attr.vtag == IppTag.nameLang && v.value_tag == IppTag.nameTag) &&
              !(attr.vtag == IppTag.textLang && v.value_tag == IppTag.text) then
        (false, serverRespondUnsupported resp attr)
      else if decide (attr.vals.length > 1) && ((v.flags &&& VALUE_1SETOF) == 0) then
        (false, serverRespondUnsupported resp attr)
      else validRowsLoop createOp groupTag req resp rest

/-- Model of `valid_values`: the supported-keywords phase (when a
supported list is present) followed by the table phase. -/
def valid_values (op : IppOp) (groupTag : IppTag) (supported : Option IppAttr)
    (values : List ServerValue) (req : List IppAttr) (resp : Response) : Bool × Response :=
  let r1 :=
    match supported with
    | none => (true, resp)
    | some sup => validSupportedLoop (isSetOp op) groupTag sup resp req
  if r1.1 then validRowsLoop (isCreateOp op) groupTag req r1.2 values
  else r1

/-- The static `values[]` table of `ipp_set_system_attributes`
(lines 7958-7967). -/
def systemSettableTable : List ServerValue :=
  [⟨cs "system-default-printer-id", IppTag.integer, IppTag.novalue, 0⟩,
   ⟨cs "system-geo-location", IppTag.uri, IppTag.unknown, 0⟩,
   ⟨cs "system-info", IppTag.text, IppTag.zero, 0⟩,
   ⟨cs "system-location", IppTag.text, IppTag.zero, 0⟩,
   ⟨cs "system-make-and-model", IppTag.text, IppTag.zero, 0⟩,
   ⟨cs "system-name", IppTag.nameTag, IppTag.zero, 0⟩,
   ⟨cs "system-owner-col", IppTag.beginCollection, IppTag.novalue, 0⟩]

/-- First collection value of an attribute (`ippGetCollection(attr, 0)`). -/
def ippGetCollection0 (attr : IppAttr) : List ColMember :=
  match attr.vals with
  | IppVal.colv ms :: _ => ms
  | _ => []

/-- First integer value of an attribute (`ippGetInteger(attr, 0)`). -/
def ippGetInteger0 (attr : IppAttr) : Int :=
  match attr.vals with
  | IppVal.int i :: _ => i
  | _ => 0

/-- First string value of an attribute (`ippGetString(attr, 0, NULL)`). -/
def ippGetString0 (attr : IppAttr) : List Char :=
  match attr.vals with
  | IppVal.str s :: _ => s
  | _ => []

/-- Member checks of the `system-owner-col` loop (lines 8007-8023): a
member must be `owner-uri` (uri, single value), `owner-name` (name or
nameWithLanguage, single value) or `owner-vcard` (text or
textWithLanguage); the first bad member reports the collection attribute
as unsupported and stops. -/
def ownerColLoop (resp : Response) (attr : IppAttr) : List ColMember → Bool × Response
  | [] => (true, resp)
  | m :: rest =>
    if m.name != cs "owner-uri" && m.name != cs "owner-name" && m.name != cs "owner-vcard" then
      (false, serverRespondUnsupported resp attr)
    else if (m.name == cs "owner-uri" && (m.vtag != IppTag.uri || m.count != 1)) ||
            (m.name == cs "owner-name" &&
              ((m.vtag != IppTag.nameTag && m.vtag != IppTag.nameLang) || m.count != 1)) ||
            (m.name == cs "owner-vcard" && m.vtag != IppTag.text && m.vtag != IppTag.textLang) then
      (false, serverRespondUnsupported resp attr)
    else ownerColLoop resp attr rest

/-- System object state touched by `ipp_set_system_attributes`:
`SystemAttributes`, `SystemConfigChangeTime` and `SystemConfigChanges`. -/
structure SysState where
  attrs : List IppAttr
  configChangeTime : Int
  configChanges : Nat
  deriving DecidableEq, Repr

/-- The validation phase of `ipp_set_system_attributes` (everything before
the mutation loop): `valid_values` over the system-settable table with the
`system-settable-attributes-supported` keyword list, then the
`system-owner-col` member checks. -/
def ssa_validate (st : SysState) (req : List IppAttr) (resp : Response) : Bool × Response :=
  let settable := ippFindAttribute st.attrs (cs "system-settable-attributes-supported") IppTag.keyword
  let r1 := valid_values IppOp.setSystemAttributes IppTag.system settable systemSettableTable req resp
  if !r1.1 then r1
  else
    match ippFindAttribute req (cs "system-owner-col") IppTag.beginCollection with
    | none => (true, r1.2)
    | some attr => ownerColLoop r1.2 attr (ippGetCollection0 attr)

/-- Set value 0 of a value list (`ippSetInteger` / `ippSetString` /
`ippSetCollection` on index 0). -/
def setVal0 (vals : List IppVal) (v : IppVal) : List IppVal :=
  match vals with
  | [] => [v]
  | _ :: rest => v :: rest

/-- One iteration of the mutation loop (lines 8026-8068): request
attributes outside the system group are skipped; a request attribute whose
name exists in `SystemAttributes` updates it according to its value tag
(integer / uri / collection set value 0; name and text variants delete the
old attribute and append a copy); other tags are ignored. -/
def applyOneSet (sys : List IppAttr) (attr : IppAttr) : List IppAttr :=
  if attr.name.isEmpty || attr.group != IppTag.system then sys
  else
    match ippFindAttribute sys attr.name IppTag.zero with
    | none => sys
    | some _ =>
      match attr.vtag with
      | IppTag.integer =>
        replaceFirst (fun a => a.name == attr.name)
          (fun a => { a with vals := setVal0 a.vals (IppVal.int (ippGetInteger0 attr)) }) sys
      | IppTag.nameTag | IppTag.nameLang | IppTag.text | IppTag.textLang =>
        removeFirst (fun a => a.name == attr.name) sys ++ [attr]
      | IppTag.uri =>
        replaceFirst (fun a => a.name == attr.name)
          (fun a => { a with vals := setVal0 a.vals (IppVal.str (ippGetString0 attr)) }) sys
      | IppTag.beginCollection =>
        replaceFirst (fun a => a.name == attr.name)
          (fun a => { a with vals := setVal0 a.vals (IppVal.colv (ippGetCollection0 attr)) }) sys
      | _ => sys

/-- Model of `ipp_set_system_attributes` (authorization guards aside): the
whole request is validated, and only if validation succeeds are the
attributes applied, `SystemConfigChangeTime` set to the current time,
`SystemConfigChanges` incremented and `successful-ok` recorded. -/
def ipp_set_system_attributes (now : Int) (st : SysState) (req : List IppAttr)
    (resp : Response) : SysState × Response :=
  let v := ssa_validate st req resp
  if !v.1 then (st, v.2)
  else
    ({ attrs := req.foldl applyOneSet st.attrs,
       configChangeTime := now,
       configChanges := st.configChanges + 1 },
     serverRespondIPP v.2 IppStatus.ok none)

/-- System state used in concrete evaluations: `system-info` is settable,
`system-foo` is not. -/
def c4State : SysState :=
  ⟨[⟨cs "system-settable-attributes-supported", IppTag.system, IppTag.keyword,
      [IppVal.str (cs "system-info"), IppVal.str (cs "system-name")]⟩,
    ⟨cs "system-info", IppTag.system, IppTag.text, [IppVal.str (cs "old")]⟩],
   100, 3⟩

/-- A Set-System-Attributes request carrying a system attribute that is
absent from `system-settable-attributes-supported`. -/
def c4Request : List IppAttr :=
  [⟨cs "system-foo", IppTag.system, IppTag.text, [IppVal.str (cs "x")]⟩]

/-- C4: whenever the validation phase of `ipp_set_system_attributes` fails,
`SystemAttributes`, `SystemConfigChangeTime` and `SystemConfigChanges` are
returned exactly as they were — the operation is atomic.  However the
claim's further assertion that the handler then returns an ERROR response
fails: at the concrete failing request `c4Request` (an unsettable system
attribute), validation fails, yet the response status is still
`successful-ok`, because `respond_unsettable` only sets
`attributes-not-settable` when an error is already recorded (its guard is
inverted, compare `serverRespondUnsupported`). -/
theorem C4_set_system_attributes_atomic (now : Int) (st : SysState) (req : List IppAttr)
    (resp : Response) (h : (ssa_validate st req resp).1 = false) :
    (ipp_set_system_attributes now st req resp).1 = st ∧
    ((ssa_validate c4State c4Request freshResponse).1 = false ∧
     (ipp_set_system_attributes 0 c4State c4Request freshResponse).1 = c4State ∧
     (ipp_set_system_attributes 0 c4State c4Request freshResponse).2.status = IppStatus.ok) := by
  refine ⟨?_, by decide, by decide, by decide⟩
  unfold ipp_set_system_attributes
  simp [h]

/-- C4 witness: `C4_set_system_attributes_atomic` applied at the concrete
failing request. -/
theorem C4_set_system_attributes_atomic_witness :
    (ipp_set_system_attributes 0 c4State c4Request freshResponse).1 = c4State ∧
    ((ssa_validate c4State c4Request freshResponse).1 = false ∧
     (ipp_set_system_attributes 0 c4State c4Request freshResponse).1 = c4State ∧
     (ipp_set_system_attributes 0 c4State c4Request freshResponse).2.status = IppStatus.ok) :=
  C4_set_system_attributes_atomic 0 c4State c4Request freshResponse (by decide)

/-- Supported-keywords list for the non-set-operation half of the C6
evaluation (a printer-creation supported list without `printer-foo`). -/
def c6SupportedPrinter : IppAttr :=
  ⟨cs "printer-creation-attributes-supported", IppTag.printer, IppTag.keyword,
    [IppVal.str (cs "copies-default")]⟩

/-- Offending printer attribute for the non-set-operation half. -/
def c6BadPrinterAttr : IppAttr :=
  ⟨cs "printer-foo", IppTag.printer, IppTag.text, [IppVal.str (cs "x")]⟩

/-- Settable-keywords list for the set-operation half of the C6
evaluation. -/
def c6Settable : IppAttr :=
  ⟨cs "system-settable-attributes-supported", IppTag.system, IppTag.keyword,
    [IppVal.str (cs "system-info"), IppVal.str (cs "system-name")]⟩

/-- C6: evaluation of `valid_values` on a fresh response.  For the set
operation (Set-System-Attributes) with the unsettable attribute
`system-foo`, validation fails and the attribute's name IS attached to the
unsupported group as a `not-settable` out-of-band value, but the response
status REMAINS `successful-ok` instead of becoming
`attributes-not-settable`: the guard in `respond_unsettable` is inverted
(`!= IPP_STATUS_OK` where its sibling `serverRespondUnsupported` uses
`==`), so the claimed status is never set on the first failure.  For a
non-set operation (Create-Printer) the claim's second half holds: the
status becomes `attributes-or-values` and the offending attribute is
copied to the unsupported group. -/
theorem C6_respond_unsettable_eval :
    ((valid_values IppOp.setSystemAttributes IppTag.system (some c6Settable)
        systemSettableTable c4Request freshResponse).1 = false ∧
     (valid_values IppOp.setSystemAttributes IppTag.system (some c6Settable)
        systemSettableTable c4Request freshResponse).2.status = IppStatus.ok ∧
     (⟨cs "system-foo", IppTag.unsupportedGroup, IppTag.notSettable, []⟩ : IppAttr) ∈
       (valid_values IppOp.setSystemAttributes IppTag.system (some c6Settable)
          systemSettableTable c4Request freshResponse).2.attrs) ∧
    ((valid_values IppOp.createPrinter IppTag.printer (some c6SupportedPrinter)
        [] [c6BadPrinterAttr] freshResponse).1 = false ∧
     (valid_values IppOp.createPrinter IppTag.printer (some c6SupportedPrinter)
        [] [c6BadPrinterAttr] freshResponse).2.status = IppStatus.errAttributesOrValues ∧
     ({ c6BadPrinterAttr with group := IppTag.unsupportedGroup }) ∈
       (valid_values IppOp.createPrinter IppTag.printer (some c6SupportedPrinter)
          [] [c6BadPrinterAttr] freshResponse).2.attrs) := by
  decide

/-!
## C5 — `ipp_get_notifications` (server/transform.c:4918)

The entry loop over parallel `notify-subscription-ids` /
`notify-sequence-numbers`.  `serverFindSubscription` and
`serverAuthorizeUser` live outside `src/`; the lookup is modelled as a
search of the subscription registry by id, and authorization is an
abstract predicate parameter — the behavior this claim is about (what
happens to the REMAINING entries after one entry fails) is decided
entirely by the loop in `src/`, which executes `break` after recording the
error and then leaves the outer do-while through `if (i < count) break`.
The model is the single pass the loop performs when `notify-wait` is not
set (a failed entry also ends the request when it is set). -/

/-- Subscription object fields read by `ipp_get_notifications`: id, owner,
event ring bounds and the buffered events (payloads abstracted to `Nat`). -/
structure Subscription where
  id : Int
  username : List Char
  first_sequence : Int
  last_sequence : Int
  events : List Nat
  deriving DecidableEq, Repr

/-- Response content produced by `ipp_get_notifications`: final status,
ids attached to the unsupported group, and the returned events in order. -/
structure NotifResult where
  status : IppStatus
  unsupportedIds : List Int
  events : List Nat
  deriving DecidableEq, Repr

/-- Registry lookup by subscription id. -/
def serverFindSubscription (subs : List Subscription) (sid : Int) : Option Subscription :=
  subs.find? fun s => s.id == sid

/-- The entry loop: a missing subscription records `not-found`, an
unauthorized one `not-authorized`; both attach the id to the unsupported
group and stop (the C `break` plus `if (i < count) break`).  A live entry
contributes every buffered event with sequence number ≥ the requested
number (clamped to `first_sequence`); the first event contributed switches
the response to `successful-ok`. -/
def ipp_get_notifications_loop (subs : List Subscription) (authOk : Subscription → Bool) :
    List (Int × Int) → NotifResult → NotifResult
  | [], acc => acc
  | (sid, sq) :: rest, acc =>
    match serverFindSubscription subs sid with
    | none =>
      { acc with status := IppStatus.errNotFound,
                 unsupportedIds := acc.unsupportedIds ++ [sid] }
    | some sub =>
      if !authOk sub then
        { acc with status := IppStatus.errNotAuthorized,
                   unsupportedIds := acc.unsupportedIds ++ [sid] }
      else
        let sq := max sq sub.first_sequence
        if sub.last_sequence < sq then
          ipp_get_notifications_loop subs authOk rest acc
        else
          let evs := sub.events.drop (sq - sub.first_sequence).toNat
          let st := if acc.events.isEmpty && !evs.isEmpty then IppStatus.ok else acc.status
          ipp_get_notifications_loop subs authOk rest
            { status := st, unsupportedIds := acc.unsupportedIds, events := acc.events ++ evs }

/-- Model of `ipp_get_notifications` for a request without `notify-wait`:
one pass of the entry loop starting from a fresh (successful-ok) response. -/
def ipp_get_notifications (subs : List Subscription) (authOk : Subscription → Bool)
    (reqPairs : List (Int × Int)) : NotifResult :=
  ipp_get_notifications_loop subs authOk reqPairs ⟨IppStatus.ok, [], []⟩

/-- Registry with a single live subscription (id 1, events 10 and 20 at
sequence numbers 1 and 2). -/
def c5Subs : List Subscription := [⟨1, cs "alice", 1, 2, [10, 20]⟩]

/-- C5 counterexample: the request names subscription 2 (which does not
exist) and then subscription 1 (which exists and has matching events with
sequence ≥ 1).  The claim asserts the failure of id 2 affects only that
entry and id 1 is still processed, so the response would contain events 10
and 20.  In fact the handler stops at the failing entry: the result
carries NO events at all (second conjunct: the same request without the
bad id does return `[10, 20]`), refuting the claim. -/
theorem C5_counterexample :
    ipp_get_notifications c5Subs (fun _ => true) [(2, 1), (1, 1)] =
      ⟨IppStatus.errNotFound, [2], []⟩ ∧
    ipp_get_notifications c5Subs (fun _ => true) [(1, 1)] =
      ⟨IppStatus.ok, [], [10, 20]⟩ := by
  decide

/-- C5 (amended): a subscription id that is missing or belongs to a
different user sets the error status, attaches exactly that id to the
unsupported group, and ABORTS the remainder of the request: entries after
the failing one are never examined (the result of the whole request equals
the result of the request truncated just after the failing entry), while
entries before it keep their contributed events in the response. -/
theorem C5_failed_id_stops_processing (subs : List Subscription)
    (authOk : Subscription → Bool) (xs rest : List (Int × Int)) (bad : Int × Int)
    (acc : NotifResult)
    (hbad : serverFindSubscription subs bad.1 = none ∨
            (∃ s, serverFindSubscription subs bad.1 = some s ∧ authOk s = false)) :
    ipp_get_notifications_loop subs authOk (xs ++ bad :: rest) acc =
      ipp_get_notifications_loop subs authOk (xs ++ [bad]) acc ∧
    (∃ st, ipp_get_notifications_loop subs authOk [bad] acc =
        { acc with status := st, unsupportedIds := acc.unsupportedIds ++ [bad.1] } ∧
      (st = IppStatus.errNotFound ∨ st = IppStatus.errNotAuthorized)) := by
  constructor
  · induction xs generalizing acc with
    | nil =>
      rcases bad with ⟨sid, sq⟩
      rcases hbad with hnone | ⟨s, hfind, hauth⟩
      · simp [ipp_get_notifications_loop, hnone]
      · simp [ipp_get_notifications_loop, hfind, hauth]
    | cons x xs ih =>
      rcases x with ⟨sid, sq⟩
      simp only [List.cons_append, ipp_get_notifications_loop]
      cases hfind : serverFindSubscription subs sid with
      | none => rfl
      | some sub =>
        by_cases hauth : authOk sub
        · by_cases hseq : sub.last_sequence < max sq sub.first_sequence
          · simp only [hauth, Bool.not_true, Bool.false_eq_true, if_false, hseq, if_true]
            exact ih _
          · simp only [hauth, Bool.not_true, Bool.false_eq_true, if_false, hseq, if_true]
            exact ih _
        · simp [hauth]
  · rcases bad with ⟨sid, sq⟩
    rcases hbad with hnone | ⟨s, hfind, hauth⟩
    · exact ⟨IppStatus.errNotFound, by simp [ipp_get_notifications_loop, hnone], Or.inl rfl⟩
    · exact ⟨IppStatus.errNotAuthorized, by simp [ipp_get_notifications_loop, hfind, hauth],
        Or.inr rfl⟩

/-- C5 witness: `C5_failed_id_stops_processing` at the concrete registry,
with a good entry before the failing id and another good entry after it. -/
theorem C5_failed_id_stops_processing_witness :
    (serverFindSubscription c5Subs 2 = none ∨
      (∃ s, serverFindSubscription c5Subs 2 = some s ∧ (fun _ => true) s = false)) ∧
    (ipp_get_notifications_loop c5Subs (fun _ => true) ([(1, 1)] ++ (2, 5) :: [(1, 2)])
        ⟨IppStatus.ok, [], []⟩ =
      ipp_get_notifications_loop c5Subs (fun _ => true) ([(1, 1)] ++ [(2, 5)])
        ⟨IppStatus.ok, [], []⟩ ∧
     (∃ st, ipp_get_notifications_loop c5Subs (fun _ => true) [(2, 5)] ⟨IppStatus.ok, [], []⟩ =
         { status := st, unsupportedIds := [] ++ [2], events := [] } ∧
       (st = IppStatus.errNotFound ∨ st = IppStatus.errNotAuthorized))) :=
  ⟨Or.inl (by decide),
   C5_failed_id_stops_processing c5Subs (fun _ => true) [(1, 1)] [(1, 2)] (2, 5)
     ⟨IppStatus.ok, [], []⟩ (Or.inl (by decide))⟩

/-!
## C9 — `serverStopJob` (server/transform.c:37) and
## C7 — `ipp_cancel_job` (server/transform.c:2669)
-/

/-- Job object fields read or written by `serverStopJob`,
`ipp_cancel_job` and `ipp_update_job_status`: the proxy-facing fields are
`impcompleted` (job-impressions-completed), `dev_state` (the raw
`output-device-job-state` enum value as cast by the C code), from
`dev_state_reasons` the device-reported reason bits, and `dev_uuid` the
assigned output device (the empty list standing for the NULL pointer). -/
structure SJob where
  state : JState
  state_reasons : Nat
  cancel : Bool
  completed : Int
  fd : Int
  transform_pid : Int
  impcompleted : Int
  dev_state : Int
  dev_state_reasons : Nat
  dev_uuid : List Char
  deriving DecidableEq, Repr

/-- Modelled from the spec: the `job-stopped` entry of the
`server_jreason_t` bit enumeration lives in `ippserver.h`, which is not
under `src/`; the exact bit position is immaterial to the claims, only
that it is a single fixed bit. -/
def SERVER_JREASON_JOB_STOPPED : Nat := 2 ^ 17

/-- Modelled from the spec: event bits of `server_event_t`
(`ippserver.h`, not under `src/`); the claims only need two distinct
fixed bits. -/
def SERVER_EVENT_JOB_STATE_CHANGED : Nat := 2 ^ 5

/-- Modelled from the spec: the `job-completed` event bit
(`ippserver.h`, not under `src/`). -/
def SERVER_EVENT_JOB_COMPLETED : Nat := 2 ^ 2

/-- An event as enqueued by `serverAddEventNoLock`: event bit plus
message text (empty for a NULL message). -/
structure SEvent where
  mask : Nat
  message : List Char
  deriving DecidableEq, Repr

/-- Model of `serverStopJob`.  The printer is an arbitrary value passed
through untouched: the function body never writes a printer field (it
reads `job->printer` only to tag the emitted event).  Output: the job, the
printer, the list of signalled pids (SIGTERM targets) and the emitted
events. -/
def serverStopJob {π : Type} (job : SJob) (printer : π) : SJob × π × List Int × List SEvent :=
  if job.state ≠ JState.processing then (job, printer, [], [])
  else
    ({ job with state := JState.stopped,
                state_reasons := job.state_reasons ||| SERVER_JREASON_JOB_STOPPED },
     printer,
     (if job.transform_pid ≠ 0 then [job.transform_pid] else []),
     [⟨SERVER_EVENT_JOB_STATE_CHANGED, cs "Job stopped."⟩])

/-- C9: `serverStopJob` is a no-op on every job that is not in the
processing state — job fields, the owning printer, and the outside world
(no signal, no event) are unchanged; a processing job is transitioned to
stopped with the `job-stopped` reason added, SIGTERM is sent to the
recorded transform process (and to nothing when none is recorded), and the
printer is untouched. -/
theorem C9_serverStopJob {π : Type} (job : SJob) (printer : π) :
    (job.state ≠ JState.processing →
      serverStopJob job printer = (job, printer, [], [])) ∧
    (job.state = JState.processing →
      (serverStopJob job printer).1 =
        { job with state := JState.stopped,
                   state_reasons := job.state_reasons ||| SERVER_JREASON_JOB_STOPPED } ∧
      (serverStopJob job printer).2.1 = printer ∧
      (serverStopJob job printer).2.2.1 =
        (if job.transform_pid ≠ 0 then [job.transform_pid] else []) ∧
      (serverStopJob job printer).2.2.2 =
        [⟨SERVER_EVENT_JOB_STATE_CHANGED, cs "Job stopped."⟩]) := by
  constructor
  · intro h
    unfold serverStopJob
    simp [h]
  · intro h
    unfold serverStopJob
    simp [h]

/-- Concrete held job with an open spool descriptor. -/
def heldJob : SJob := ⟨JState.held, 0, false, 0, 5, 0, 0, 0, 0, []⟩

/-- Concrete processing job with transform pid 321. -/
def processingJob : SJob := ⟨JState.processing, 1, false, 0, -1, 321, 2, 0, 0, []⟩

/-- C9 witness: `C9_serverStopJob` applied to a held job (no-op, no
signal, no event) and to a processing job (stopped, reason bit set,
SIGTERM to pid 321, printer value untouched). -/
theorem C9_serverStopJob_witness :
    serverStopJob heldJob (37 : Nat) = (heldJob, 37, [], []) ∧
    ((serverStopJob processingJob (37 : Nat)).1 =
        { processingJob with
            state := JState.stopped,
            state_reasons := processingJob.state_reasons ||| SERVER_JREASON_JOB_STOPPED } ∧
      (serverStopJob processingJob (37 : Nat)).2.1 = 37 ∧
      (serverStopJob processingJob (37 : Nat)).2.2.1 =
        (if processingJob.transform_pid ≠ 0 then [processingJob.transform_pid] else []) ∧
      (serverStopJob processingJob (37 : Nat)).2.2.2 =
        [⟨SERVER_EVENT_JOB_STATE_CHANGED, cs "Job stopped."⟩]) :=
  ⟨(C9_serverStopJob heldJob 37).1 (by decide),
   (C9_serverStopJob processingJob 37).2 rfl⟩

/-- Result of `ipp_cancel_job`: the job (as found), the response, the
signalled pids and the emitted events. -/
structure CancelResult where
  job : Option SJob
  resp : Response
  signals : List Int
  events : List SEvent
  deriving DecidableEq, Repr

/-- Model of `ipp_cancel_job`.  `authRequired` is the global
`Authentication` setting; `hasUsername` and `authorized` summarize the two
guard calls (their bodies live outside `src/`); `found` is the
`serverFindJob` result.  A terminal job answers `not-possible`; otherwise
a processing job (or a held job still receiving data) gets its cancel
flag set — with `serverStopJob` doing the stopping for the processing
case — while any other job goes directly to canceled with its completion
time set; a `job-completed` event is emitted and `successful-ok`
recorded. -/
def ipp_cancel_job (authRequired hasUsername authorized : Bool) (found : Option SJob)
    (now : Int) (resp : Response) : CancelResult :=
  if authRequired && !hasUsername then ⟨found, resp, [], []⟩
  else
    match found with
    | none => ⟨none, serverRespondIPP resp IppStatus.errNotFound (some (cs "Job does not exist.")), [], []⟩
    | some job =>
      if authRequired && !authorized then
        ⟨some job, serverRespondIPP resp IppStatus.errNotAuthorized
           (some (cs "Not authorized to access this job.")), [], []⟩
      else
        match job.state with
        | JState.canceled =>
          ⟨some job, serverRespondIPP resp IppStatus.errNotPossible
             (some (cs "Job is already canceled - can't cancel.")), [], []⟩
        | JState.aborted =>
          ⟨some job, serverRespondIPP resp IppStatus.errNotPossible
             (some (cs "Job is already aborted - can't cancel.")), [], []⟩
        | JState.completed =>
          ⟨some job, serverRespondIPP resp IppStatus.errNotPossible
             (some (cs "Job is already completed - can't cancel.")), [], []⟩
        | _ =>
          if job.state = JState.processing ||
             (job.state = JState.held && decide (0 ≤ job.fd)) then
            let job2 := { job with cancel := true }
            if job.state = JState.processing then
              let s := serverStopJob job2 ()
              ⟨some s.1, serverRespondIPP resp IppStatus.ok none, s.2.2.1,
               s.2.2.2 ++ [⟨SERVER_EVENT_JOB_COMPLETED, []⟩]⟩
            else
              ⟨some job2, serverRespondIPP resp IppStatus.ok none, [],
               [⟨SERVER_EVENT_JOB_COMPLETED, []⟩]⟩
          else
            ⟨some { job with state := JState.canceled, completed := now },
             serverRespondIPP resp IppStatus.ok none, [],
             [⟨SERVER_EVENT_JOB_COMPLETED, []⟩]⟩

/-- C7 (amended): Cancel-Job on a job whose state is canceled, aborted or
completed responds `not-possible` and mutates nothing: the job is returned
exactly as found (state, state_reasons, cancel flag and completed
timestamp all unchanged), no signal is sent and no `job-completed` event
is enqueued.  The original claim's generalization — that once a job is
terminal no further observable mutation of it occurs at all — is refuted
by `C7_counterexample` (`ipp_update_job_status` writes a terminal job's
fields with no terminal-state guard), so the no-mutation guarantee is
stated for the cited Cancel-Job handler. -/
theorem C7_cancel_terminal (authRequired hasUsername authorized : Bool) (job : SJob)
    (now : Int) (resp : Response)
    (hguard : ¬(authRequired = true ∧ hasUsername = false))
    (hauth : ¬(authRequired = true ∧ authorized = false))
    (hterm : job.state = JState.canceled ∨ job.state = JState.aborted ∨
             job.state = JState.completed) :
    (ipp_cancel_job authRequired hasUsername authorized (some job) now resp).job = some job ∧
    (ipp_cancel_job authRequired hasUsername authorized (some job) now resp).resp.status =
      IppStatus.errNotPossible ∧
    (ipp_cancel_job authRequired hasUsername authorized (some job) now resp).signals = [] ∧
    (ipp_cancel_job authRequired hasUsername authorized (some job) now resp).events = [] := by
  have h1 : (authRequired && !hasUsername) = false := by
    cases authRequired <;> cases hasUsername <;> simp_all
  have h2 : (authRequired && !authorized) = false := by
    cases authRequired <;> cases authorized <;> simp_all
  unfold ipp_cancel_job
  rcases hterm with h | h | h <;>
    simp [h1, h2, h, serverRespondIPP] <;>
    split <;> rfl

/-- Concrete already-completed job. -/
def completedJob : SJob := ⟨JState.completed, 4, false, 12345, -1, 0, 5, 0, 0, []⟩

/-- C7 witness: `C7_cancel_terminal` applied to a completed job with
authentication disabled. -/
theorem C7_cancel_terminal_witness :
    (ipp_cancel_job false true true (some completedJob) 99999 freshResponse).job =
      some completedJob ∧
    (ipp_cancel_job false true true (some completedJob) 99999 freshResponse).resp.status =
      IppStatus.errNotPossible ∧
    (ipp_cancel_job false true true (some completedJob) 99999 freshResponse).signals = [] ∧
    (ipp_cancel_job false true true (some completedJob) 99999 freshResponse).events = [] :=
  C7_cancel_terminal false true true completedJob 99999 freshResponse
    (by simp) (by simp) (Or.inr (Or.inr rfl))

/-!
## C8 — `copy_document_uri`, http/https branch (server/transform.c:1562)

The network loop `for (;;) { ... httpGet ... }`: each iteration connects,
sets `Accept-Language: en`, issues the GET, and either follows a redirect
(only to `http`/`https` URIs — anything else aborts the job with
`document-access-error`), aborts on an error status, or streams the body
and leaves the loop.  The HTTP library calls are abstracted: `sep` models
`httpSeparateURI`, `server` maps the GET target to the response.  The
`fuel` argument is an observation bound added only to make the recursion
definable in Lean: the C loop carries NO redirect counter, and a result of
`none` means the loop is still running after `fuel` iterations. -/

/-- Parsed URI parts (`httpSeparateURI` output). -/
structure UriParts where
  scheme : List Char
  host : List Char
  port : Int
  resource : List Char
  deriving DecidableEq, Repr

/-- Response of the remote server to one GET. -/
inductive HttpResp where
  | redirect (location : List Char)
  | success (contentType : List Char)
  | httpFail (code : Nat)
  deriving DecidableEq, Repr

/-- Outcome of the fetch: job aborted with `document-access-error`, or the
document fetched. -/
inductive FetchOut where
  | abortedDoc
  | fetched (contentType : List Char)
  deriving DecidableEq, Repr

/-- One GET as issued by the loop: target URI and the Accept-Language
header set just before it (`httpSetField(http, HTTP_FIELD_ACCEPT_LANGUAGE,
"en")`). -/
structure GetRecord where
  uri : List Char
  acceptLanguage : List Char
  deriving DecidableEq, Repr

/-- Model of the http/https loop of `copy_document_uri`.  Returns the GET
trace and the outcome; `none` means the loop is still iterating when the
observation bound runs out. -/
def copy_document_uri (sep : List Char → Option UriParts) (server : List Char → HttpResp) :
    Nat → List Char → List GetRecord → List GetRecord × Option FetchOut
  | 0, _, trace => (trace, none)
  | Nat.succ fuel, uri, trace =>
    let trace2 := trace ++ [⟨uri, cs "en"⟩]
    match server uri with
    | HttpResp.redirect loc =>
      match sep loc with
      | none => (trace2, some FetchOut.abortedDoc)
      | some u =>
        if u.scheme != cs "http" && u.scheme != cs "https" then
          (trace2, some FetchOut.abortedDoc)
        else copy_document_uri sep server fuel loc trace2
    | HttpResp.success ct => (trace2, some (FetchOut.fetched ct))
    | HttpResp.httpFail _ => (trace2, some FetchOut.abortedDoc)

/-- URI parser for the concrete evaluations: knows the http URI the
looping server redirects to and one ftp URI. -/
def c8Sep : List Char → Option UriParts := fun u =>
  if u = cs "http://h/a" then some ⟨cs "http", cs "h", 80, cs "/a"⟩
  else if u = cs "ftp://f/x" then some ⟨cs "ftp", cs "f", 21, cs "/x"⟩
  else none

/-- A server that answers every GET with a redirect back to the same http
URI. -/
def c8Server : List Char → HttpResp := fun _ => HttpResp.redirect (cs "http://h/a")

/-- A server that answers every GET with a redirect to an ftp URI. -/
def c8ServerF : List Char → HttpResp := fun _ => HttpResp.redirect (cs "ftp://f/x")

theorem c8_loop_never_returns :
    ∀ fuel trace, (copy_document_uri c8Sep c8Server fuel (cs "http://h/a") trace).2 = none := by
  intro fuel
  induction fuel with
  | zero => intro _; rfl
  | succ fuel ih =>
    intro trace
    have step : copy_document_uri c8Sep c8Server (fuel + 1) (cs "http://h/a") trace =
        copy_document_uri c8Sep c8Server fuel (cs "http://h/a")
          (trace ++ [⟨cs "http://h/a", cs "en"⟩]) := rfl
    rw [step]
    exact ih _

theorem c8_accept_language_all (sep : List Char → Option UriParts)
    (server : List Char → HttpResp) (fuel : Nat) (uri : List Char)
    (trace : List GetRecord)
    (h : trace.all (fun g => g.acceptLanguage == cs "en") = true) :
    ((copy_document_uri sep server fuel uri trace).1).all
      (fun g => g.acceptLanguage == cs "en") = true := by
  induction fuel generalizing uri trace with
  | zero => exact h
  | succ fuel ih =>
    have h2 : (trace ++ [(⟨uri, cs "en"⟩ : GetRecord)]).all
        (fun g => g.acceptLanguage == cs "en") = true := by
      simp [List.all_append, h]
    unfold copy_document_uri
    cases server uri with
    | redirect loc =>
      dsimp only
      cases sep loc with
      | none => exact h2
      | some u =>
        dsimp only
        by_cases hs : (u.scheme != cs "http" && u.scheme != cs "https") = true
        · rw [if_pos hs]
          exact h2
        · rw [if_neg hs]
          exact ih _ _ h2
    | success ct =>
      dsimp only
      exact h2
    | httpFail c =>
      dsimp only
      exact h2

/-- C8: evaluation of the fetch loop at the failing input.  First
conjunct: against a server that answers every GET with a redirect to the
same http URI, the loop is still running after ANY number of iterations —
the source carries no redirect-hop counter, so the claimed bound on
redirect hops (and the claimed termination for every sequence of server
responses) does not hold.  Second conjunct: every GET the loop ever issues
carries `Accept-Language: en`, as claimed.  Third conjunct: a redirect to
an `ftp` URI aborts with `document-access-error`, as claimed (only http
and https are followed). -/
theorem C8_copy_document_uri_eval :
    (∀ fuel trace,
      (copy_document_uri c8Sep c8Server fuel (cs "http://h/a") trace).2 = none) ∧
    (∀ fuel uri,
      ((copy_document_uri c8Sep c8Server fuel uri []).1).all
        (fun g => g.acceptLanguage == cs "en") = true) ∧
    (copy_document_uri c8Sep c8ServerF 2 (cs "http://h/a") []).2 =
      some FetchOut.abortedDoc := by
  refine ⟨c8_loop_never_returns, fun fuel uri => c8_accept_language_all _ _ _ _ _ rfl, ?_⟩
  decide

/-!
## C7 continued — `ipp_update_job_status` (server/transform.c:8552-8571 of
the concatenated source, the `Update-Job-Status` proxy handler)

The claim's closing clause generalizes from Cancel-Job to "once a job is
in a terminal state no further observable mutation of it occurs".  That
generalization fails in the source: after the device and job are found and
the job's `dev_uuid` matches the device, the handler writes
`job->impcompleted`, `job->dev_state` and `job->dev_state_reasons`
straight from the request, with no guard on `job->state` — a completed,
canceled or aborted job is still mutated. -/

/-- Modelled from the spec: the `job-progress` event bit of
`server_event_t` (`ippserver.h`, not under `src/`). -/
def SERVER_EVENT_JOB_PROGRESS : Nat := 2 ^ 6

/-- Result of `ipp_update_job_status`: the job (as found, possibly
updated), the response and the emitted events. -/
structure UpdateJobResult where
  job : Option SJob
  resp : Response
  events : List SEvent
  deriving DecidableEq, Repr

/-- Model of `ipp_update_job_status`.  `getJobStateReasonsBits` abstracts
`serverGetJobStateReasonsBits` (repository code outside `src/`);
`deviceUuid` is the uuid of the device found by `serverFindDevice`
(`none` when no device is found) and `found` the `serverFindJob` result.
The three optional updates accumulate an event mask; a single event with
the combined mask is emitted when the mask is non-zero. -/
def ipp_update_job_status (getJobStateReasonsBits : IppAttr → Nat)
    (authRequired hasUsername authorized : Bool)
    (deviceUuid : Option (List Char)) (found : Option SJob)
    (req : List IppAttr) (resp : Response) : UpdateJobResult :=
  if authRequired && !hasUsername then ⟨found, resp, []⟩
  else if authRequired && !authorized then ⟨found, resp, []⟩
  else
    match deviceUuid with
    | none =>
      ⟨found, serverRespondIPP resp IppStatus.errNotFound (some (cs "Device was not found.")), []⟩
    | some duuid =>
      match found with
      | none =>
        ⟨none, serverRespondIPP resp IppStatus.errNotFound (some (cs "Job was not found.")), []⟩
      | some job =>
        if job.dev_uuid.isEmpty || job.dev_uuid != duuid then
          ⟨some job, serverRespondIPP resp IppStatus.errNotPossible
             (some (cs "Job not assigned to device.")), []⟩
        else
          let s1 :=
            match ippFindAttribute req (cs "job-impressions-completed") IppTag.integer with
            | some attr => ({ job with impcompleted := ippGetInteger0 attr }, SERVER_EVENT_JOB_PROGRESS)
            | none => (job, 0)
          let s2 :=
            match ippFindAttribute req (cs "output-device-job-state") IppTag.enum with
            | some attr => ({ s1.1 with dev_state := ippGetInteger0 attr }, SERVER_EVENT_JOB_STATE_CHANGED)
            | none => (s1.1, 0)
          let s3 :=
            match ippFindAttribute req (cs "output-device-job-state-reasons") IppTag.keyword with
            | some attr => ({ s2.1 with dev_state_reasons := getJobStateReasonsBits attr },
                            SERVER_EVENT_JOB_STATE_CHANGED)
            | none => (s2.1, 0)
          let mask := s1.2 ||| s2.2 ||| s3.2
          ⟨some s3.1, serverRespondIPP resp IppStatus.ok none,
           if mask != 0 then [⟨mask, []⟩] else []⟩

/-- A completed (terminal) job assigned to output device `uuid-1` with 5
impressions completed. -/
def completedAssignedJob : SJob :=
  ⟨JState.completed, 4, false, 12345, -1, 0, 5, 0, 0, cs "uuid-1"⟩

/-- An Update-Job-Status request reporting 7 impressions completed. -/
def c7UpdateReq : List IppAttr :=
  [⟨cs "job-impressions-completed", IppTag.operation, IppTag.integer, [IppVal.int 7]⟩]

/-- C7 counterexample: the claim's clause "once a job is in a terminal
state no further observable mutation of it occurs" is false in the source.
A job in the completed state, assigned to device `uuid-1`, is handed to
`ipp_update_job_status` with a request carrying
`job-impressions-completed = 7`: the handler succeeds and writes the job's
`impcompleted` field (5 becomes 7) and emits a `job-progress` event — an
observable mutation of a terminal job (last conjunct: the updated job
differs from the original). -/
theorem C7_counterexample :
    completedAssignedJob.state = JState.completed ∧
    (ipp_update_job_status (fun _ => 0) false true true (some (cs "uuid-1"))
        (some completedAssignedJob) c7UpdateReq freshResponse).job =
      some { completedAssignedJob with impcompleted := 7 } ∧
    (ipp_update_job_status (fun _ => 0) false true true (some (cs "uuid-1"))
        (some completedAssignedJob) c7UpdateReq freshResponse).resp.status = IppStatus.ok ∧
    (ipp_update_job_status (fun _ => 0) false true true (some (cs "uuid-1"))
        (some completedAssignedJob) c7UpdateReq freshResponse).events =
      [⟨SERVER_EVENT_JOB_PROGRESS, []⟩] ∧
    some { completedAssignedJob with impcompleted := 7 } ≠ some completedAssignedJob := by
  decide
